import Mathlib

/-!
Verification of the deterministic financial-scoring engine of the
Credit Decision Coach backend: the loan amortization calculator and the
Credit Health Index (CHI) engine from backend/app/core/calculations.py,
and the rule-based risk-alert engine and what-if simulator from
backend/app/core/risk_rules.py.

Modelling conventions:
  - Python floats are embedded as exact rationals (ℚ); Python ints as ℤ.
  - The Python built-in round (round-half-to-even on the exact value) is
    modelled by pyRound below; round(x, n) by pyRound (x * 10^n) / 10^n.
  - math.pow over floats is modelled as exact rational exponentiation.
-/

/-- Python built-in round with ndigits omitted: round to the nearest
integer, ties going to the even neighbour, on exact rationals. -/
def pyRound (q : ℚ) : ℤ :=
  if q - ⌊q⌋ < 1/2 then ⌊q⌋
  else if (1 : ℚ)/2 < q - ⌊q⌋ then ⌊q⌋ + 1
  else if ⌊q⌋ % 2 = 0 then ⌊q⌋ else ⌊q⌋ + 1

/-- Python round(x, 2): round to 2 decimal places. -/
def round2 (q : ℚ) : ℚ := (pyRound (q * 100) : ℚ) / 100

/-- Python round(x, 1): round to 1 decimal place. -/
def round1 (q : ℚ) : ℚ := (pyRound (q * 10) : ℚ) / 10

theorem floor_le_pyRound (q : ℚ) : ⌊q⌋ ≤ pyRound q := by
  unfold pyRound; split_ifs <;> omega

theorem pyRound_le_floor_add_one (q : ℚ) : pyRound q ≤ ⌊q⌋ + 1 := by
  unfold pyRound; split_ifs <;> omega

theorem pyRound_le_ceil (q : ℚ) : pyRound q ≤ ⌈q⌉ := by
  unfold pyRound
  have hfc : ⌊q⌋ ≤ ⌈q⌉ := Int.floor_le_ceil q
  split_ifs with h1 h2 h3
  · exact hfc
  · have hlt : (⌊q⌋ : ℚ) < q := by linarith
    have : ⌊q⌋ < ⌈q⌉ := Int.lt_ceil.mpr hlt
    omega
  · exact hfc
  · have hlt : (⌊q⌋ : ℚ) < q := by linarith
    have : ⌊q⌋ < ⌈q⌉ := Int.lt_ceil.mpr hlt
    omega

theorem pyRound_nonneg {q : ℚ} (h : 0 ≤ q) : 0 ≤ pyRound q := by
  have : (0 : ℤ) ≤ ⌊q⌋ := Int.le_floor.mpr (by exact_mod_cast h)
  exact le_trans this (floor_le_pyRound q)

theorem pyRound_le_of_le {q : ℚ} {n : ℤ} (h : q ≤ (n : ℚ)) : pyRound q ≤ n :=
  le_trans (pyRound_le_ceil q) (Int.ceil_le.mpr h)

theorem abs_pyRound_sub_le (q : ℚ) : |(pyRound q : ℚ) - q| ≤ 1/2 := by
  have hfl : (⌊q⌋ : ℚ) ≤ q := Int.floor_le q
  have hfu : q < (⌊q⌋ : ℚ) + 1 := Int.lt_floor_add_one q
  unfold pyRound
  split_ifs with h1 h2 h3
  · rw [abs_le]; constructor <;> linarith
  · rw [abs_le]; push_cast; constructor <;> linarith
  · rw [abs_le]; constructor <;> linarith
  · rw [abs_le]; push_cast; constructor <;> linarith

theorem abs_round1_sub_le (q : ℚ) : |round1 q - q| ≤ 1/20 := by
  unfold round1
  have h := abs_pyRound_sub_le (q * 10)
  have h10 : |(pyRound (q * 10) : ℚ) / 10 - q| = |(pyRound (q * 10) : ℚ) - q * 10| / 10 := by
    rw [show (pyRound (q * 10) : ℚ) / 10 - q = ((pyRound (q * 10) : ℚ) - q * 10) / 10 by ring]
    rw [abs_div]
    norm_num
  rw [h10]
  linarith

theorem round2_nonneg {q : ℚ} (h : 0 ≤ q) : 0 ≤ round2 q := by
  unfold round2
  have : (0 : ℤ) ≤ pyRound (q * 100) := pyRound_nonneg (by positivity)
  positivity

/-! ### calculations.py -/

/-- calculate_emi from backend/app/core/calculations.py.  Monthly EMI from
principal, annual percentage rate and tenure in months; math.pow is
modelled as exact rational exponentiation. -/
def calculate_emi (principal annual_rate : ℚ) (tenure_months : ℤ) : ℚ :=
  if principal ≤ 0 ∨ tenure_months ≤ 0 then 0
  else if annual_rate ≤ 0 then principal / tenure_months
  else
    let monthly_rate := annual_rate / 12 / 100
    round2 ((principal * monthly_rate * (1 + monthly_rate) ^ tenure_months.toNat) /
      ((1 + monthly_rate) ^ tenure_months.toNat - 1))

/-- calculate_total_interest from backend/app/core/calculations.py. -/
def calculate_total_interest (principal emi : ℚ) (tenure_months : ℤ) : ℚ :=
  round2 (emi * tenure_months - principal)

/-- calculate_chi from backend/app/core/calculations.py: the 0-100
Credit Health Index. -/
def calculate_chi (credit_score : ℤ) (emi_to_income_ratio : ℚ)
    (active_loans : ℤ) (missed_payments : ℤ) : ℤ :=
  let score_component : ℚ := ((credit_score : ℚ) / 900) * 40
  let emi_component : ℚ := max 0 ((1 - emi_to_income_ratio / 100) * 30)
  let loan_component : ℚ := max 0 ((1 - (active_loans : ℚ) / 10) * 15)
  let payment_component : ℚ := max 0 ((1 - (missed_payments : ℚ) / 5) * 15)
  pyRound (score_component + emi_component + loan_component + payment_component)

/-- One entry of the dictionary returned by get_chi_breakdown. -/
structure BreakdownEntry where
  value : ℚ
  component_score : ℚ
  max_score : ℤ
  weight : String
deriving Repr, DecidableEq

/-- The dictionary returned by get_chi_breakdown, with its four keys. -/
structure ChiBreakdown where
  credit_score : BreakdownEntry
  emi_ratio : BreakdownEntry
  active_loans : BreakdownEntry
  missed_payments : BreakdownEntry
deriving Repr, DecidableEq

/-- get_chi_breakdown from backend/app/core/calculations.py. -/
def get_chi_breakdown (credit_score : ℤ) (emi_to_income_ratio : ℚ)
    (active_loans : ℤ) (missed_payments : ℤ) : ChiBreakdown :=
  { credit_score :=
      { value := (credit_score : ℚ)
      , component_score := round1 (((credit_score : ℚ) / 900) * 40)
      , max_score := 40
      , weight := "40%" }
  , emi_ratio :=
      { value := emi_to_income_ratio
      , component_score := round1 (max 0 ((1 - emi_to_income_ratio / 100) * 30))
      , max_score := 30
      , weight := "30%" }
  , active_loans :=
      { value := (active_loans : ℚ)
      , component_score := round1 (max 0 ((1 - (active_loans : ℚ) / 10) * 15))
      , max_score := 15
      , weight := "15%" }
  , missed_payments :=
      { value := (missed_payments : ℚ)
      , component_score := round1 (max 0 ((1 - (missed_payments : ℚ) / 5) * 15))
      , max_score := 15
      , weight := "15%" } }

/-- get_risk_level from backend/app/core/calculations.py. -/
def get_risk_level (chi_score : ℤ) : String :=
  if 70 ≤ chi_score then "low"
  else if 40 ≤ chi_score then "medium"
  else "high"

/-! ### risk_rules.py -/

/-- The profile mapping built inside generate_risk_alerts and handed to
every rule predicate: the raw fields plus the derived emi_ratio and
disposable_pct.  In the source it is a dict whose keys are always all
present, so dict.get defaults never fire. -/
structure Profile where
  credit_score : ℤ
  monthly_income : ℚ
  monthly_expenses : ℚ
  existing_emis : ℚ
  credit_utilization : ℤ
  active_loans : ℤ
  emi_ratio : ℚ
  disposable_pct : ℚ
  score_trend : ℤ
deriving Repr, DecidableEq

/-- One entry of the RISK_RULES catalog.  check models the rule lambda:
none models a predicate that raises an exception, some b a predicate that
returns b.  render models description_template.format(ratio=..,
utilization=.., score=.., loans=.., disposable_pct=.., trend=..): none
models a rendering that raises (for example on a missing template key). -/
structure RiskRule where
  id : String
  title : String
  rule : String
  severity : String
  check : Profile → Option Bool
  render : Profile → Option String

/-- One triggered alert, as appended by generate_risk_alerts. -/
structure Alert where
  id : String
  title : String
  description : String
  severity : String
  rule : String
  created_at : String
  is_active : Bool
deriving Repr, DecidableEq

/-- Python format spec :.0f on an exact rational (round to nearest,
ties to even, then print the integer). -/
def fmt0f (q : ℚ) : String := toString (pyRound q)

/-- The helper _check_disposable from backend/app/core/risk_rules.py:
disposable income as a percentage of income, 0 when income <= 0. -/
def check_disposable (p : Profile) : ℚ :=
  if p.monthly_income ≤ 0 then 0
  else (p.monthly_income - p.monthly_expenses - p.existing_emis) / p.monthly_income * 100

/-- The static RISK_RULES catalog from backend/app/core/risk_rules.py,
in catalog order. -/
def RISK_RULES : List RiskRule :=
  [ { id := "high_emi_burden"
    , title := "High EMI Burden"
    , rule := "EMI > 40% of income"
    , severity := "high"
    , check := fun p => some (decide (40 < p.emi_ratio))
    , render := fun p => some ("Your EMI consumes " ++ fmt0f p.emi_ratio ++ "% of your income. This may reduce future loan eligibility.") }
  , { id := "very_high_emi"
    , title := "Critical EMI Level"
    , rule := "EMI > 60% of income"
    , severity := "high"
    , check := fun p => some (decide (60 < p.emi_ratio))
    , render := fun p => some ("Your EMI is at " ++ fmt0f p.emi_ratio ++ "% of income - critically high. Consider debt consolidation.") }
  , { id := "high_credit_utilization"
    , title := "Credit Utilization Rising"
    , rule := "Credit utilization > 60%"
    , severity := "medium"
    , check := fun p => some (decide (60 < p.credit_utilization))
    , render := fun p => some ("Your credit utilization is at " ++ toString p.credit_utilization ++ "%. Consider paying down balances.") }
  , { id := "very_high_utilization"
    , title := "Credit Utilization Critical"
    , rule := "Credit utilization > 80%"
    , severity := "high"
    , check := fun p => some (decide (80 < p.credit_utilization))
    , render := fun p => some ("Credit utilization at " ++ toString p.credit_utilization ++ "% is critically high. This severely impacts your score.") }
  , { id := "low_credit_score"
    , title := "Low Credit Score"
    , rule := "Credit score < 600"
    , severity := "high"
    , check := fun p => some (decide (p.credit_score < 600))
    , render := fun p => some ("Your credit score of " ++ toString p.credit_score ++ " is below average. Focus on timely payments and reducing debt.") }
  , { id := "multiple_active_loans"
    , title := "Multiple Active Loans"
    , rule := "Active loans > 3"
    , severity := "medium"
    , check := fun p => some (decide (3 < p.active_loans))
    , render := fun p => some ("You have " ++ toString p.active_loans ++ " active loans. Consider consolidating to simplify management.") }
  , { id := "low_disposable_income"
    , title := "Low Disposable Income"
    , rule := "Disposable income < 20% of income"
    , severity := "medium"
    , check := fun p => some (decide (check_disposable p < 20))
    , render := fun p => some ("Your disposable income is only " ++ fmt0f p.disposable_pct ++ "% of your earnings. Build an emergency fund.") }
  , { id := "score_improvement"
    , title := "Score Improvement"
    , rule := "Positive trend detected"
    , severity := "low"
    , check := fun p => some (decide (30 < p.score_trend))
    , render := fun p => some ("Your credit score has improved by " ++ toString p.score_trend ++ " points in the last 6 months. Keep it up!") }
  , { id := "healthy_finances"
    , title := "Healthy Financial Status"
    , rule := "EMI < 30% and score > 750"
    , severity := "low"
    , check := fun p => some (decide (p.emi_ratio < 30 ∧ 750 < p.credit_score))
    , render := fun _ => some ("Your finances are in excellent shape with low EMI burden and high credit score.") }
  , { id := "optimal_utilization"
    , title := "Optimal Credit Utilization"
    , rule := "Credit utilization between 10-30%"
    , severity := "low"
    , check := fun p => some (decide (10 ≤ p.credit_utilization ∧ p.credit_utilization ≤ 30))
    , render := fun p => some ("Your credit utilization of " ++ toString p.credit_utilization ++ "% is in the optimal range. Well done!") } ]

/-- One iteration of the try/except loop body of generate_risk_alerts:
evaluate the rule predicate, and on trigger render the description and
build the alert; any exception (a none from check or render) makes the
whole iteration yield nothing, so the rule is skipped. -/
def processRule (now : String) (r : RiskRule) (p : Profile) : Option Alert :=
  match r.check p with
  | none => none
  | some b =>
    if b then
      match r.render p with
      | none => none
      | some desc =>
        some { id := r.id, title := r.title, description := desc
             , severity := r.severity, rule := r.rule
             , created_at := now, is_active := true }
    else none

/-- The rule loop of generate_risk_alerts over an arbitrary rule list:
alerts are appended in rule order, skipped rules contribute nothing. -/
def evalRules (now : String) (rules : List RiskRule) (p : Profile) : List Alert :=
  rules.filterMap (fun r => processRule now r p)

/-- The severity_order dict of generate_risk_alerts:
high -> 0, medium -> 1, low -> 2, anything else -> 3 (the .get default). -/
def severityOrder (s : String) : ℕ :=
  if s = "high" then 0
  else if s = "medium" then 1
  else if s = "low" then 2
  else 3

/-- alerts.sort(key=lambda x: severity_order.get(x["severity"], 3)).
Python list.sort is a stable sort; for a key function into the finite
range {0,1,2,3} the stable sort of a list is exactly the concatenation of
its key-preimage sublists in increasing key order, which is how it is
written here. -/
def sortBySeverity (l : List Alert) : List Alert :=
  l.filter (fun a => severityOrder a.severity == 0)
    ++ l.filter (fun a => severityOrder a.severity == 1)
    ++ l.filter (fun a => severityOrder a.severity == 2)
    ++ l.filter (fun a => severityOrder a.severity == 3)

/-- The profile-building prefix of generate_risk_alerts (the derived
emi_ratio with its 100 sentinel, disposable_pct with its 0 sentinel, and
the profile dict). -/
def buildProfile (credit_score : ℤ) (monthly_income monthly_expenses existing_emis : ℚ)
    (credit_utilization active_loans score_trend : ℤ) : Profile :=
  { credit_score := credit_score
  , monthly_income := monthly_income
  , monthly_expenses := monthly_expenses
  , existing_emis := existing_emis
  , credit_utilization := credit_utilization
  , active_loans := active_loans
  , emi_ratio := if 0 < monthly_income then existing_emis / monthly_income * 100 else 100
  , disposable_pct :=
      if 0 < monthly_income
      then (monthly_income - monthly_expenses - existing_emis) / monthly_income * 100
      else 0
  , score_trend := score_trend }

/-- generate_risk_alerts from backend/app/core/risk_rules.py.  The extra
now argument models the datetime.utcnow().isoformat() timestamp stamped
on every alert of one call. -/
def generate_risk_alerts (credit_score : ℤ)
    (monthly_income monthly_expenses existing_emis : ℚ)
    (credit_utilization active_loans score_trend : ℤ) (now : String) : List Alert :=
  sortBySeverity (evalRules now RISK_RULES
    (buildProfile credit_score monthly_income monthly_expenses existing_emis
      credit_utilization active_loans score_trend))

/-- One entry of the SIMULATION_ACTIONS catalog. -/
structure SimulationAction where
  id : String
  title : String
  description : String
  impact : ℤ
  direction : String
  explanation : String
  alternative : String
deriving Repr, DecidableEq

/-- The static SIMULATION_ACTIONS catalog from backend/app/core/risk_rules.py. -/
def SIMULATION_ACTIONS : List SimulationAction :=
  [ { id := "miss_emi"
    , title := "Miss 1 EMI"
    , description := "See the impact of missing a single EMI payment"
    , impact := -35
    , direction := "down"
    , explanation := "Missing one EMI may reduce your score by ~30-40 points. Payment history accounts for 35% of your credit score."
    , alternative := "Set up auto-debit or extend tenure by 6 months to reduce EMI if you\x27re tight on cash." }
  , { id := "increase_util"
    , title := "Increase Utilization"
    , description := "Use more of your available credit limit"
    , impact := -25
    , direction := "down"
    , explanation := "Increasing utilization above 70% signals credit dependency. Each 10% increase above 30% costs ~5-10 points."
    , alternative := "Request a credit limit increase instead, or spread expenses across multiple cards." }
  , { id := "extend_tenure"
    , title := "Extend Tenure"
    , description := "Increase your loan repayment period"
    , impact := 5
    , direction := "up"
    , explanation := "Extending tenure lowers your EMI-to-income ratio, which can slightly improve your credit health index."
    , alternative := "Consider this option if you need immediate cash flow relief." }
  , { id := "close_loan"
    , title := "Close a Loan"
    , description := "Pay off and close an existing loan"
    , impact := 15
    , direction := "up"
    , explanation := "Closing a loan reduces your debt burden and may improve your score by 10-20 points over 2-3 months."
    , alternative := "Prioritize closing high-interest loans first for maximum impact." }
  , { id := "reduce_utilization"
    , title := "Reduce Utilization to 30%"
    , description := "Pay down credit card balances"
    , impact := 20
    , direction := "up"
    , explanation := "Reducing utilization below 30% is optimal. Each 10% reduction below 50% can add 5-10 points."
    , alternative := "If you can\x27t pay down, request a credit limit increase to lower the ratio." }
  , { id := "new_credit_inquiry"
    , title := "Apply for New Credit"
    , description := "Submit a new loan or credit card application"
    , impact := -10
    , direction := "down"
    , explanation := "Each hard inquiry reduces your score by 5-15 points temporarily. Multiple inquiries in short time have bigger impact."
    , alternative := "Space out credit applications by at least 6 months when possible." } ]

/-- get_simulation_action from backend/app/core/risk_rules.py: first
catalog entry with the given id, none when absent. -/
def get_simulation_action (action_id : String) : Option SimulationAction :=
  SIMULATION_ACTIONS.find? (fun a => a.id == action_id)

/-- The result dict of simulate_action. -/
structure SimulationResult where
  current_score : ℤ
  projected_score : ℤ
  impact : ℤ
  direction : String
  explanation : String
  alternative : String
deriving Repr, DecidableEq

/-- simulate_action from backend/app/core/risk_rules.py: look the action
up, none when absent, otherwise project the score and clamp to [300, 900]. -/
def simulate_action (action_id : String) (current_score : ℤ) : Option SimulationResult :=
  match get_simulation_action action_id with
  | none => none
  | some action =>
    some { current_score := current_score
         , projected_score := max 300 (min 900 (current_score + action.impact))
         , impact := action.impact
         , direction := action.direction
         , explanation := action.explanation
         , alternative := action.alternative }

/-! ### Helper lemmas about the rule engine -/

theorem processRule_eq_some {now : String} {r : RiskRule} {p : Profile} {a : Alert}
    (h : processRule now r p = some a) :
    r.check p = some true ∧ a.id = r.id ∧ a.severity = r.severity := by
  unfold processRule at h
  rcases hc : r.check p with _ | b
  · rw [hc] at h; exact absurd h (by simp)
  · rw [hc] at h
    rcases b with _ | _
    · simp at h
    · rcases hr : r.render p with _ | d
      · rw [hr] at h; simp at h
      · rw [hr] at h
        simp only [if_true] at h
        simp at h
        refine ⟨rfl, ?_, ?_⟩ <;> rw [← h]

theorem processRule_some_of {now : String} {r : RiskRule} {p : Profile} {d : String}
    (hc : r.check p = some true) (hr : r.render p = some d) :
    processRule now r p = some
      { id := r.id, title := r.title, description := d, severity := r.severity
      , rule := r.rule, created_at := now, is_active := true } := by
  unfold processRule
  rw [hc, hr]
  rfl

theorem mem_evalRules {now : String} {rules : List RiskRule} {p : Profile} {a : Alert} :
    a ∈ evalRules now rules p ↔ ∃ r ∈ rules, processRule now r p = some a := by
  unfold evalRules
  exact List.mem_filterMap

theorem severityOrder_cases (s : String) :
    severityOrder s = 0 ∨ severityOrder s = 1 ∨ severityOrder s = 2 ∨ severityOrder s = 3 := by
  unfold severityOrder
  split_ifs <;> simp

theorem rank_of_mem_bucket {x : Alert} {l : List Alert} {i : ℕ}
    (h : x ∈ l.filter (fun a => severityOrder a.severity == i)) :
    severityOrder x.severity = i := by
  rw [List.mem_filter] at h
  simpa using h.2

theorem mem_sortBySeverity {a : Alert} {l : List Alert} :
    a ∈ sortBySeverity l ↔ a ∈ l := by
  unfold sortBySeverity
  constructor
  · intro h
    rcases List.mem_append.mp h with h | h
    · rcases List.mem_append.mp h with h | h
      · rcases List.mem_append.mp h with h | h
        · exact (List.mem_filter.mp h).1
        · exact (List.mem_filter.mp h).1
      · exact (List.mem_filter.mp h).1
    · exact (List.mem_filter.mp h).1
  · intro h
    rcases severityOrder_cases a.severity with h0 | h0 | h0 | h0
    · exact List.mem_append.mpr (Or.inl (List.mem_append.mpr (Or.inl
        (List.mem_append.mpr (Or.inl (List.mem_filter.mpr ⟨h, by simp [h0]⟩))))))
    · exact List.mem_append.mpr (Or.inl (List.mem_append.mpr (Or.inl
        (List.mem_append.mpr (Or.inr (List.mem_filter.mpr ⟨h, by simp [h0]⟩))))))
    · exact List.mem_append.mpr (Or.inl (List.mem_append.mpr (Or.inr
        (List.mem_filter.mpr ⟨h, by simp [h0]⟩))))
    · exact List.mem_append.mpr (Or.inr (List.mem_filter.mpr ⟨h, by simp [h0]⟩))

theorem pairwise_of_forall_mem_rel {α : Type} {R : α → α → Prop} :
    ∀ (l : List α), (∀ a ∈ l, ∀ b ∈ l, R a b) → l.Pairwise R
  | [], _ => List.Pairwise.nil
  | x :: xs, h =>
      List.Pairwise.cons
        (fun b hb => h x (List.mem_cons_self x xs) b (List.mem_cons_of_mem x hb))
        (pairwise_of_forall_mem_rel xs
          (fun a ha b hb => h a (List.mem_cons_of_mem x ha) b (List.mem_cons_of_mem x hb)))

theorem sortBySeverity_sorted (l : List Alert) :
    (sortBySeverity l).Pairwise
      (fun a b => severityOrder a.severity ≤ severityOrder b.severity) := by
  have hb : ∀ i : ℕ, (l.filter (fun x => severityOrder x.severity == i)).Pairwise
      (fun a b => severityOrder a.severity ≤ severityOrder b.severity) := by
    intro i
    apply pairwise_of_forall_mem_rel
    intro a ha b hbm
    show severityOrder a.severity ≤ severityOrder b.severity
    have h1 := rank_of_mem_bucket ha
    have h2 := rank_of_mem_bucket hbm
    omega
  unfold sortBySeverity
  rw [List.pairwise_append]
  refine ⟨?_, hb 3, ?_⟩
  · rw [List.pairwise_append]
    refine ⟨?_, hb 2, ?_⟩
    · rw [List.pairwise_append]
      refine ⟨hb 0, hb 1, ?_⟩
      intro a ha b hbm
      show severityOrder a.severity ≤ severityOrder b.severity
      have h1 := rank_of_mem_bucket ha
      have h2 := rank_of_mem_bucket hbm
      omega
    · intro a ha b hbm
      show severityOrder a.severity ≤ severityOrder b.severity
      have h2 := rank_of_mem_bucket hbm
      rcases List.mem_append.mp ha with ha | ha <;>
        · have h1 := rank_of_mem_bucket ha
          omega
  · intro a ha b hbm
    show severityOrder a.severity ≤ severityOrder b.severity
    have h3 := rank_of_mem_bucket hbm
    rcases List.mem_append.mp ha with ha | ha
    · rcases List.mem_append.mp ha with ha | ha <;>
        · have h1 := rank_of_mem_bucket ha
          omega
    · have h1 := rank_of_mem_bucket ha
      omega

theorem bucket_filter_eq (l : List Alert) (s : String) (i : ℕ) (h : severityOrder s = i) :
    (l.filter (fun a => severityOrder a.severity == i)).filter (fun a => a.severity == s)
      = l.filter (fun a => a.severity == s) := by
  rw [List.filter_filter]
  apply List.filter_congr
  intro a _
  by_cases hs : a.severity = s
  · simp [hs, h]
  · simp [hs]

theorem bucket_filter_ne (l : List Alert) (s : String) (i : ℕ) (h : severityOrder s ≠ i) :
    (l.filter (fun a => severityOrder a.severity == i)).filter (fun a => a.severity == s)
      = [] := by
  rw [List.filter_filter, List.filter_eq_nil_iff]
  intro a _
  by_cases hs : a.severity = s
  · simp [hs, h]
  · simp [hs]

theorem sortBySeverity_filter (l : List Alert) (s : String) :
    (sortBySeverity l).filter (fun a => a.severity == s)
      = l.filter (fun a => a.severity == s) := by
  unfold sortBySeverity
  rw [List.filter_append, List.filter_append, List.filter_append]
  rcases severityOrder_cases s with h | h | h | h
  · rw [bucket_filter_eq l s 0 h, bucket_filter_ne l s 1 (by omega),
      bucket_filter_ne l s 2 (by omega), bucket_filter_ne l s 3 (by omega)]
    simp
  · rw [bucket_filter_ne l s 0 (by omega), bucket_filter_eq l s 1 h,
      bucket_filter_ne l s 2 (by omega), bucket_filter_ne l s 3 (by omega)]
    simp
  · rw [bucket_filter_ne l s 0 (by omega), bucket_filter_ne l s 1 (by omega),
      bucket_filter_eq l s 2 h, bucket_filter_ne l s 3 (by omega)]
    simp
  · rw [bucket_filter_ne l s 0 (by omega), bucket_filter_ne l s 1 (by omega),
      bucket_filter_ne l s 2 (by omega), bucket_filter_eq l s 3 h]
    simp

/-! ### Evaluation lemmas for pyRound on concrete rationals -/

theorem pyRound_eval_low {q : ℚ} {n : ℤ} (h1 : (n : ℚ) ≤ q) (h2 : q - n < 1/2) :
    pyRound q = n := by
  have hfl : ⌊q⌋ = n := by
    rw [Int.floor_eq_iff]
    exact ⟨h1, by linarith⟩
  unfold pyRound
  rw [hfl, if_pos (by linarith)]

theorem pyRound_eval_high {q : ℚ} {n : ℤ} (h1 : (n : ℚ) ≤ q) (h2 : 1/2 < q - n)
    (h3 : q < n + 1) : pyRound q = n + 1 := by
  have hfl : ⌊q⌋ = n := by
    rw [Int.floor_eq_iff]
    exact ⟨h1, by linarith⟩
  unfold pyRound
  rw [hfl, if_neg (by linarith), if_pos (by linarith)]

theorem pyRound_eval_tie {q : ℚ} {n : ℤ} (h1 : q - n = 1/2) :
    pyRound q = if n % 2 = 0 then n else n + 1 := by
  have hfl : ⌊q⌋ = n := by
    rw [Int.floor_eq_iff]
    exact ⟨by linarith, by linarith⟩
  unfold pyRound
  rw [hfl, if_neg (by linarith), if_neg (by linarith)]

/-! ### C1 -/

/-- C1: for every credit_score in [300, 900], emi_to_income_ratio in
[0, 100], active_loans >= 0 and missed_payments >= 0, calculate_chi
returns an integer between 0 and 100. -/
theorem calculate_chi_mem_range (credit_score : ℤ) (emi_to_income_ratio : ℚ)
    (active_loans missed_payments : ℤ)
    (h1 : 300 ≤ credit_score) (h2 : credit_score ≤ 900)
    (h3 : 0 ≤ emi_to_income_ratio) (h4 : emi_to_income_ratio ≤ 100)
    (h5 : 0 ≤ active_loans) (h6 : 0 ≤ missed_payments) :
    0 ≤ calculate_chi credit_score emi_to_income_ratio active_loans missed_payments ∧
      calculate_chi credit_score emi_to_income_ratio active_loans missed_payments ≤ 100 := by
  unfold calculate_chi
  have hc1 : (300 : ℚ) ≤ (credit_score : ℚ) := by exact_mod_cast h1
  have hc2 : (credit_score : ℚ) ≤ 900 := by exact_mod_cast h2
  have hc5 : (0 : ℚ) ≤ (active_loans : ℚ) := by exact_mod_cast h5
  have hc6 : (0 : ℚ) ≤ (missed_payments : ℚ) := by exact_mod_cast h6
  constructor
  · apply pyRound_nonneg
    have e1 : (0 : ℚ) ≤ ((credit_score : ℚ) / 900) * 40 := by positivity
    have e2 : (0 : ℚ) ≤ max 0 ((1 - emi_to_income_ratio / 100) * 30) := le_max_left 0 _
    have e3 : (0 : ℚ) ≤ max 0 ((1 - (active_loans : ℚ) / 10) * 15) := le_max_left 0 _
    have e4 : (0 : ℚ) ≤ max 0 ((1 - (missed_payments : ℚ) / 5) * 15) := le_max_left 0 _
    linarith
  · apply pyRound_le_of_le
    have e1 : ((credit_score : ℚ) / 900) * 40 ≤ 40 := by linarith
    have e2 : max 0 ((1 - emi_to_income_ratio / 100) * 30) ≤ 30 :=
      max_le (by norm_num) (by linarith)
    have e3 : max 0 ((1 - (active_loans : ℚ) / 10) * 15) ≤ 15 :=
      max_le (by norm_num) (by linarith)
    have e4 : max 0 ((1 - (missed_payments : ℚ) / 5) * 15) ≤ 15 :=
      max_le (by norm_num) (by linarith)
    push_cast
    linarith

/-- C1 witness: the bounds at the concrete input (700, 30, 2, 0). -/
theorem calculate_chi_mem_range_witness :
    0 ≤ calculate_chi 700 30 2 0 ∧ calculate_chi 700 30 2 0 ≤ 100 :=
  calculate_chi_mem_range 700 30 2 0 (by norm_num) (by norm_num) (by norm_num)
    (by norm_num) (by norm_num) (by norm_num)

/-! ### C2 -/

/-- Modelled from the claim wording on calculate_emi (spec section 4.1
plus its rounding sentence, which says the returned value is rounded to 2
decimal places in every case): same branch structure as calculate_emi but
with round(_, 2) applied to every branch result. -/
def calculate_emi_claim (principal annual_rate : ℚ) (tenure_months : ℤ) : ℚ :=
  if principal ≤ 0 ∨ tenure_months ≤ 0 then round2 0
  else if annual_rate ≤ 0 then round2 (principal / tenure_months)
  else
    let monthly_rate := annual_rate / 12 / 100
    round2 ((principal * monthly_rate * (1 + monthly_rate) ^ tenure_months.toNat) /
      ((1 + monthly_rate) ^ tenure_months.toNat - 1))

/-- C2 counterexample: at principal 100, rate 0, tenure 3 the code
returns the unrounded 100/3 while the claim, which asks for rounding to 2
decimal places in every case, would give 33.33. -/
theorem calculate_emi_not_always_rounded :
    calculate_emi 100 0 3 = 100/3 ∧ calculate_emi_claim 100 0 3 = 3333/100 ∧
      calculate_emi 100 0 3 ≠ calculate_emi_claim 100 0 3 := by
  have h1 : calculate_emi 100 0 3 = 100/3 := by
    unfold calculate_emi
    rw [if_neg (by norm_num), if_pos (by norm_num)]
    norm_num
  have h2 : calculate_emi_claim 100 0 3 = 3333/100 := by
    unfold calculate_emi_claim
    rw [if_neg (by norm_num), if_pos (by norm_num)]
    unfold round2
    rw [show (100:ℚ) / ((3:ℤ):ℚ) * 100 = 10000/3 by push_cast; ring]
    rw [pyRound_eval_low (n := 3333) (by norm_num) (by norm_num)]
    norm_num
  exact ⟨h1, h2, by rw [h1, h2]; norm_num⟩

/-- C2 amended: calculate_emi returns 0 when principal <= 0 or
tenure_months <= 0, the unrounded straight-line division
principal / tenure_months when annual_rate <= 0, and otherwise the
annuity formula with monthly_rate = annual_rate/12/100 rounded to 2
decimal places; only the annuity branch rounds. -/
theorem calculate_emi_branches : ∀ (principal annual_rate : ℚ) (tenure_months : ℤ),
    ((principal ≤ 0 ∨ tenure_months ≤ 0) →
      calculate_emi principal annual_rate tenure_months = 0)
    ∧ (¬(principal ≤ 0 ∨ tenure_months ≤ 0) → annual_rate ≤ 0 →
      calculate_emi principal annual_rate tenure_months = principal / tenure_months)
    ∧ (¬(principal ≤ 0 ∨ tenure_months ≤ 0) → ¬(annual_rate ≤ 0) →
      calculate_emi principal annual_rate tenure_months =
        round2 ((principal * (annual_rate / 12 / 100) *
            (1 + annual_rate / 12 / 100) ^ tenure_months.toNat) /
          ((1 + annual_rate / 12 / 100) ^ tenure_months.toNat - 1))) := by
  intro principal annual_rate tenure_months
  refine ⟨?_, ?_, ?_⟩
  · intro h
    unfold calculate_emi
    rw [if_pos h]
  · intro h hr
    unfold calculate_emi
    rw [if_neg h, if_pos hr]
  · intro h hr
    unfold calculate_emi
    rw [if_neg h, if_neg hr]

/-- C2 amended witness: the annuity branch at (100000, 10, 12). -/
theorem calculate_emi_branches_witness :
    calculate_emi 100000 10 12 =
      round2 ((100000 * ((10:ℚ) / 12 / 100) * (1 + (10:ℚ) / 12 / 100) ^ (12:ℤ).toNat) /
        ((1 + (10:ℚ) / 12 / 100) ^ (12:ℤ).toNat - 1)) :=
  (calculate_emi_branches 100000 10 12).2.2 (by norm_num) (by norm_num)

/-! ### C3 -/

/-- C3: get_risk_level returns low exactly when chi >= 70, medium exactly
when 40 <= chi < 70 and high exactly when chi < 40, with the boundary
values 70, 69, 40 and 39 pinned. -/
theorem get_risk_level_thresholds : ∀ chi_score : ℤ,
    ((get_risk_level chi_score = "low" ↔ 70 ≤ chi_score)
      ∧ (get_risk_level chi_score = "medium" ↔ 40 ≤ chi_score ∧ chi_score < 70)
      ∧ (get_risk_level chi_score = "high" ↔ chi_score < 40))
    ∧ get_risk_level 70 = "low" ∧ get_risk_level 69 = "medium"
    ∧ get_risk_level 40 = "medium" ∧ get_risk_level 39 = "high" := by
  intro chi_score
  refine ⟨⟨?_, ?_, ?_⟩, by decide, by decide, by decide, by decide⟩ <;>
    · unfold get_risk_level
      split_ifs with h1 h2 <;> simp_all <;> omega

/-- C3 witness: the theorem instantiated at 55. -/
theorem get_risk_level_thresholds_witness :
    get_risk_level 55 = "medium" :=
  ((get_risk_level_thresholds 55).1.2.1).mpr (by norm_num)

/-! ### C7 -/

/-- The sum of the four component_score values of a CHI breakdown. -/
def chi_component_sum (b : ChiBreakdown) : ℚ :=
  b.credit_score.component_score + b.emi_ratio.component_score
    + b.active_loans.component_score + b.missed_payments.component_score

/-- C7 counterexample: at credit_score 600, emi ratio 43/4 (10.75), no
loans and no missed payments the four rounded component scores sum to
83.5 while calculate_chi returns 83, so the components do not sum to the
score, with or without re-rounding the sum. -/
theorem chi_breakdown_sum_counterexample :
    chi_component_sum (get_chi_breakdown 600 (43/4) 0 0) = 167/2
    ∧ calculate_chi 600 (43/4) 0 0 = 83
    ∧ chi_component_sum (get_chi_breakdown 600 (43/4) 0 0)
        ≠ ((calculate_chi 600 (43/4) 0 0 : ℤ) : ℚ)
    ∧ pyRound (chi_component_sum (get_chi_breakdown 600 (43/4) 0 0))
        ≠ calculate_chi 600 (43/4) 0 0 := by
  have p1 : pyRound ((800:ℚ)/3) = 267 := by
    rw [pyRound_eval_high (n := 266) (by norm_num) (by norm_num) (by norm_num)]
    norm_num
  have p2 : pyRound ((1071:ℚ)/4) = 268 := by
    rw [pyRound_eval_high (n := 267) (by norm_num) (by norm_num) (by norm_num)]
    norm_num
  have p3 : pyRound ((150:ℚ)) = 150 := pyRound_eval_low (by norm_num) (by norm_num)
  have hb : chi_component_sum (get_chi_breakdown 600 (43/4) 0 0) = 167/2 := by
    norm_num [chi_component_sum, get_chi_breakdown, round1, max_def, p1, p2, p3]
  have pc : pyRound ((10013:ℚ)/120) = 83 := pyRound_eval_low (by norm_num) (by norm_num)
  have hc : calculate_chi 600 (43/4) 0 0 = 83 := by
    norm_num [calculate_chi, max_def, pc]
  have p5 : pyRound ((167:ℚ)/2) = 84 := by
    rw [pyRound_eval_tie (n := 83) (by norm_num)]
    norm_num
  refine ⟨hb, hc, ?_, ?_⟩
  · rw [hb, hc]; norm_num
  · rw [hb, hc, p5]; norm_num

theorem sum_round1_close (a b c d : ℚ) :
    |round1 a + round1 b + round1 c + round1 d - (pyRound (a + b + c + d) : ℚ)| ≤ 7/10 := by
  have h1 := abs_round1_sub_le a
  have h2 := abs_round1_sub_le b
  have h3 := abs_round1_sub_le c
  have h4 := abs_round1_sub_le d
  have h5 := abs_pyRound_sub_le (a + b + c + d)
  rw [abs_le] at h1 h2 h3 h4 h5 ⊢
  constructor <;> linarith

/-- C7 amended: the four component_score values of get_chi_breakdown sum
to within 0.7 of the calculate_chi score (0.05 rounding slack per
component plus 0.5 for the final integer rounding); exact equality fails. -/
theorem chi_breakdown_sum_close :
    ∀ (credit_score : ℤ) (emi_to_income_ratio : ℚ) (active_loans missed_payments : ℤ),
    |chi_component_sum (get_chi_breakdown credit_score emi_to_income_ratio
        active_loans missed_payments)
      - (calculate_chi credit_score emi_to_income_ratio active_loans missed_payments : ℚ)|
      ≤ 7/10 := by
  intro credit_score emi_to_income_ratio active_loans missed_payments
  exact sum_round1_close (((credit_score : ℚ) / 900) * 40)
    (max 0 ((1 - emi_to_income_ratio / 100) * 30))
    (max 0 ((1 - (active_loans : ℚ) / 10) * 15))
    (max 0 ((1 - (missed_payments : ℚ) / 5) * 15))

/-! ### C8 -/

/-- C8 counterexample: with principal 0.01, annual rate 1 and tenure 12
the rounded EMI is 0.00, so the round-trip total interest is -0.01 < 0,
refuting nonnegativity for positive principal, nonnegative rate and
positive tenure. -/
theorem total_interest_roundtrip_counterexample :
    (0:ℚ) < 1/100 ∧ (0:ℚ) ≤ 1 ∧ (0:ℤ) < 12 ∧
    calculate_emi (1/100) 1 12 = 0 ∧
    calculate_total_interest (1/100) (calculate_emi (1/100) 1 12) 12 = -1/100 ∧
    calculate_total_interest (1/100) (calculate_emi (1/100) 1 12) 12 < 0 := by
  have he : calculate_emi (1/100) 1 12 = 0 := by
    unfold calculate_emi
    rw [if_neg (by norm_num), if_neg (by norm_num)]
    show round2 _ = 0
    unfold round2
    rw [show ((12:ℤ).toNat) = 12 from rfl]
    rw [pyRound_eval_low (n := 0) (by norm_num) (by norm_num)]
    norm_num
  have ht : calculate_total_interest (1/100) 0 12 = -1/100 := by
    unfold calculate_total_interest round2
    rw [show ((0:ℚ) * ((12:ℤ):ℚ) - 1/100) * 100 = -1 by push_cast; ring]
    rw [pyRound_eval_low (n := -1) (by norm_num) (by norm_num)]
    norm_num
  refine ⟨by norm_num, by norm_num, by norm_num, he, by rw [he]; exact ht, ?_⟩
  rw [he, ht]
  norm_num

/-- C8 amended: the round-trip holds in the interest-free case (with
annual_rate = 0 the total interest is exactly 0), and it is nonnegative
whenever the rounded EMI times the tenure covers the principal; for
positive rates the 2-decimal rounding of the EMI can make it negative. -/
theorem total_interest_roundtrip_amended :
    ∀ (principal annual_rate : ℚ) (tenure_months : ℤ),
    0 < principal → 0 < tenure_months →
    (annual_rate = 0 →
      calculate_total_interest principal
        (calculate_emi principal annual_rate tenure_months) tenure_months = 0)
    ∧ (principal ≤ calculate_emi principal annual_rate tenure_months * tenure_months →
      0 ≤ calculate_total_interest principal
        (calculate_emi principal annual_rate tenure_months) tenure_months) := by
  intro principal annual_rate tenure_months hP hn
  constructor
  · intro hr
    have he : calculate_emi principal annual_rate tenure_months
        = principal / tenure_months := by
      unfold calculate_emi
      rw [if_neg (by push_neg; exact ⟨hP, hn⟩), if_pos (le_of_eq hr)]
    rw [he]
    unfold calculate_total_interest
    have hne : ((tenure_months : ℚ)) ≠ 0 := by
      have : (0:ℚ) < (tenure_months : ℚ) := by exact_mod_cast hn
      linarith
    rw [div_mul_cancel₀ _ hne, sub_self]
    unfold round2
    rw [show (0:ℚ) * 100 = 0 by ring]
    rw [pyRound_eval_low (n := 0) (by norm_num) (by norm_num)]
    norm_num
  · intro h
    unfold calculate_total_interest
    exact round2_nonneg (by linarith)

/-- C8 amended witness: interest-free round-trip at (100, 0, 4). -/
theorem total_interest_roundtrip_amended_witness :
    calculate_total_interest 100 (calculate_emi 100 0 4) 4 = 0 :=
  (total_interest_roundtrip_amended 100 0 4 (by norm_num) (by norm_num)).1 rfl

/-! ### C4 -/

/-- C4: simulate_action signals not-found (none) exactly when the id is
absent from the static SIMULATION_ACTIONS catalog, and otherwise returns
a result whose projected_score is current_score plus the action impact
clamped to [300, 900]; in particular close_loan at 700 projects 715 and
an unknown id gives none. -/
theorem simulate_action_spec : ∀ (action_id : String) (current_score : ℤ),
    (simulate_action action_id current_score = none ↔
      ∀ a ∈ SIMULATION_ACTIONS, a.id ≠ action_id)
    ∧ (∀ res, simulate_action action_id current_score = some res →
        ∃ a ∈ SIMULATION_ACTIONS, a.id = action_id ∧
          res.projected_score = max 300 (min 900 (current_score + a.impact)))
    ∧ (∃ res, simulate_action "close_loan" 700 = some res ∧ res.projected_score = 715)
    ∧ simulate_action "unknown_id" 700 = none := by
  intro action_id current_score
  refine ⟨?_, ?_, ⟨_, rfl, rfl⟩, rfl⟩
  · unfold simulate_action get_simulation_action
    rcases hf : SIMULATION_ACTIONS.find? (fun a => a.id == action_id) with _ | act
    · rw [hf]
      constructor
      · intro _ a ha
        simpa using List.find?_eq_none.mp hf a ha
      · intro _
        rfl
    · rw [hf]
      constructor
      · intro h
        simp at h
      · intro hall
        exfalso
        have hmem := List.mem_of_find?_eq_some hf
        have hid := List.find?_some hf
        exact hall act hmem (by simpa using hid)
  · intro res h
    unfold simulate_action get_simulation_action at h
    rcases hf : SIMULATION_ACTIONS.find? (fun a => a.id == action_id) with _ | act
    · rw [hf] at h
      simp at h
    · rw [hf] at h
      simp only [Option.some.injEq] at h
      refine ⟨act, List.mem_of_find?_eq_some hf, by simpa using List.find?_some hf, ?_⟩
      rw [← h]

/-- C4 witness: the theorem applied at a concrete lookup. -/
theorem simulate_action_spec_witness :
    simulate_action "unknown_id" 700 = none :=
  (simulate_action_spec "close_loan" 700).2.2.2

/-! ### C6 -/

/-- C6: rule evaluation is rule-isolated: a rule whose predicate raises
(check gives none), or whose rendering raises after its predicate
triggered (render gives none), is skipped on its own, and the evaluation
of the remaining rules is exactly that of the list without it.  evalRules
is a total function, so the call as a whole never raises. -/
theorem generate_alerts_rule_isolated :
    ∀ (now : String) (p : Profile) (front back : List RiskRule) (r : RiskRule),
    (r.check p = none ∨ (r.check p = some true ∧ r.render p = none)) →
    evalRules now (front ++ r :: back) p = evalRules now (front ++ back) p := by
  intro now p front back r h
  have hnone : processRule now r p = none := by
    rcases h with h | ⟨h1, h2⟩
    · simp [processRule, h]
    · simp [processRule, h1, h2]
  unfold evalRules
  rw [List.filterMap_append, List.filterMap_append]
  congr 1
  exact List.filterMap_cons_none hnone

/-- A rule whose predicate raises on every profile, modelled by a check
returning none; used to exercise rule isolation. -/
def raisingRule : RiskRule :=
  { id := "raising_rule", title := "Raising Rule", rule := "always raises"
  , severity := "high", check := fun _ => none, render := fun _ => none }

/-- A concrete profile snapshot for the rule-isolation witness. -/
def witnessProfile : Profile :=
  { credit_score := 700, monthly_income := 50000, monthly_expenses := 20000
  , existing_emis := 10000, credit_utilization := 50, active_loans := 1
  , emi_ratio := 20, disposable_pct := 40, score_trend := 0 }

/-- C6 witness: appending a raising rule to the catalog leaves the
evaluation unchanged. -/
theorem generate_alerts_rule_isolated_witness :
    evalRules "t" (RISK_RULES ++ raisingRule :: []) witnessProfile
      = evalRules "t" (RISK_RULES ++ []) witnessProfile :=
  generate_alerts_rule_isolated "t" witnessProfile RISK_RULES [] raisingRule (Or.inl rfl)

/-! ### C9 -/

theorem alert_id_gives_rule {now : String} {p : Profile} {s : String}
    (h : s ∈ (sortBySeverity (evalRules now RISK_RULES p)).map (fun a => a.id)) :
    ∃ r ∈ RISK_RULES, r.id = s ∧ r.check p = some true := by
  rcases List.mem_map.mp h with ⟨a, ha, hid⟩
  rcases mem_evalRules.mp (mem_sortBySeverity.mp ha) with ⟨r, hr, hpr⟩
  obtain ⟨hc, hai, _⟩ := processRule_eq_some hpr
  exact ⟨r, hr, by rw [← hai, hid], hc⟩

theorem emi_ratio_gt_of_high_emi_mem {now : String} {p : Profile}
    (h : "high_emi_burden" ∈ (sortBySeverity (evalRules now RISK_RULES p)).map
      (fun a => a.id)) :
    40 < p.emi_ratio := by
  rcases alert_id_gives_rule h with ⟨r, hr, hid, hc⟩
  simp only [RISK_RULES, List.mem_cons, List.not_mem_nil, or_false] at hr
  rcases hr with rfl | rfl | rfl | rfl | rfl | rfl | rfl | rfl | rfl | rfl
  · simpa using hc
  · simp at hid
  · simp at hid
  · simp at hid
  · simp at hid
  · simp at hid
  · simp at hid
  · simp at hid
  · simp at hid
  · simp at hid

theorem emi_ratio_lt_of_healthy_mem {now : String} {p : Profile}
    (h : "healthy_finances" ∈ (sortBySeverity (evalRules now RISK_RULES p)).map
      (fun a => a.id)) :
    p.emi_ratio < 30 := by
  rcases alert_id_gives_rule h with ⟨r, hr, hid, hc⟩
  simp only [RISK_RULES, List.mem_cons, List.not_mem_nil, or_false] at hr
  rcases hr with rfl | rfl | rfl | rfl | rfl | rfl | rfl | rfl | rfl | rfl
  · simp at hid
  · simp at hid
  · simp at hid
  · simp at hid
  · simp at hid
  · simp at hid
  · simp at hid
  · simp at hid
  · exact (by simpa using hc : p.emi_ratio < 30 ∧ 750 < p.credit_score).1
  · simp at hid

/-- C9: generate_risk_alerts never emits both the high_emi_burden alert
and the healthy_finances alert: their predicates require emi_ratio > 40
and emi_ratio < 30 over the same derived emi_ratio of the call. -/
theorem high_emi_and_healthy_exclusive :
    ∀ (credit_score : ℤ) (monthly_income monthly_expenses existing_emis : ℚ)
      (credit_utilization active_loans score_trend : ℤ) (now : String),
    ¬("high_emi_burden" ∈ (generate_risk_alerts credit_score monthly_income
          monthly_expenses existing_emis credit_utilization active_loans
          score_trend now).map (fun a => a.id)
      ∧ "healthy_finances" ∈ (generate_risk_alerts credit_score monthly_income
          monthly_expenses existing_emis credit_utilization active_loans
          score_trend now).map (fun a => a.id)) := by
  intro credit_score monthly_income monthly_expenses existing_emis credit_utilization
    active_loans score_trend now
  rintro ⟨h1, h2⟩
  unfold generate_risk_alerts at h1 h2
  have g1 := emi_ratio_gt_of_high_emi_mem h1
  have g2 := emi_ratio_lt_of_healthy_mem h2
  linarith

/-- C9 witness: exclusivity at a concrete input. -/
theorem high_emi_and_healthy_exclusive_witness :
    ¬("high_emi_burden" ∈ (generate_risk_alerts 700 1000 100 100 50 1 0 "t").map
        (fun a => a.id)
      ∧ "healthy_finances" ∈ (generate_risk_alerts 700 1000 100 100 50 1 0 "t").map
        (fun a => a.id)) :=
  high_emi_and_healthy_exclusive 700 1000 100 100 50 1 0 "t"

/-! ### C5 -/

/-- C5: the output of generate_risk_alerts is sorted by severity in the
fixed order high, medium, low (anything else last), the sort is stable
(for every severity the output subsequence equals the catalog-order
evaluation subsequence), and with one triggered rule of each severity the
output order is exactly high, medium, low. -/
theorem alerts_sorted_stable :
    ∀ (credit_score : ℤ) (monthly_income monthly_expenses existing_emis : ℚ)
      (credit_utilization active_loans score_trend : ℤ) (now : String),
    (generate_risk_alerts credit_score monthly_income monthly_expenses existing_emis
        credit_utilization active_loans score_trend now).Pairwise
      (fun a b => severityOrder a.severity ≤ severityOrder b.severity)
    ∧ (∀ s : String,
        (generate_risk_alerts credit_score monthly_income monthly_expenses existing_emis
            credit_utilization active_loans score_trend now).filter
          (fun a => a.severity == s)
        = (evalRules now RISK_RULES (buildProfile credit_score monthly_income
            monthly_expenses existing_emis credit_utilization active_loans
            score_trend)).filter (fun a => a.severity == s))
    ∧ (generate_risk_alerts 760 100000 10000 45000 65 0 40 now).map
        (fun a => (a.id, a.severity))
      = [("high_emi_burden", "high"), ("high_credit_utilization", "medium"),
         ("score_improvement", "low")] := by
  intro credit_score monthly_income monthly_expenses existing_emis credit_utilization
    active_loans score_trend now
  refine ⟨?_, ?_, ?_⟩
  · unfold generate_risk_alerts
    exact sortBySeverity_sorted _
  · intro s
    unfold generate_risk_alerts
    exact sortBySeverity_filter _ s
  · norm_num [generate_risk_alerts, evalRules, RISK_RULES, processRule,
      check_disposable, buildProfile, List.filterMap_cons]
    simp [sortBySeverity, severityOrder]

/-- C5 witness: the concrete one-of-each-severity instance. -/
theorem alerts_sorted_stable_witness :
    (generate_risk_alerts 760 100000 10000 45000 65 0 40 "t").map
      (fun a => (a.id, a.severity))
    = [("high_emi_burden", "high"), ("high_credit_utilization", "medium"),
       ("score_improvement", "low")] :=
  (alerts_sorted_stable 760 100000 10000 45000 65 0 40 "t").2.2

/-! ### C10 -/

theorem id_mem_of_rule {now : String} {p : Profile} {r : RiskRule} {d s : String}
    (hr : r ∈ RISK_RULES) (hc : r.check p = some true) (hd : r.render p = some d)
    (hs : r.id = s) :
    s ∈ (sortBySeverity (evalRules now RISK_RULES p)).map (fun a => a.id) :=
  hs ▸ List.mem_map.mpr ⟨_, mem_sortBySeverity.mpr (mem_evalRules.mpr
    ⟨r, hr, processRule_some_of hc hd⟩), rfl⟩

/-- C10: with monthly_income <= 0 the derived emi_ratio is the sentinel
100 and disposable_pct is 0, and the output of generate_risk_alerts
always contains the high_emi_burden, very_high_emi and
low_disposable_income alerts, whatever the other inputs. -/
theorem zero_income_sentinel_alerts :
    ∀ (credit_score : ℤ) (monthly_income monthly_expenses existing_emis : ℚ)
      (credit_utilization active_loans score_trend : ℤ) (now : String),
    monthly_income ≤ 0 →
    (buildProfile credit_score monthly_income monthly_expenses existing_emis
        credit_utilization active_loans score_trend).emi_ratio = 100
    ∧ (buildProfile credit_score monthly_income monthly_expenses existing_emis
        credit_utilization active_loans score_trend).disposable_pct = 0
    ∧ "high_emi_burden" ∈ (generate_risk_alerts credit_score monthly_income
        monthly_expenses existing_emis credit_utilization active_loans
        score_trend now).map (fun a => a.id)
    ∧ "very_high_emi" ∈ (generate_risk_alerts credit_score monthly_income
        monthly_expenses existing_emis credit_utilization active_loans
        score_trend now).map (fun a => a.id)
    ∧ "low_disposable_income" ∈ (generate_risk_alerts credit_score monthly_income
        monthly_expenses existing_emis credit_utilization active_loans
        score_trend now).map (fun a => a.id) := by
  intro credit_score monthly_income monthly_expenses existing_emis credit_utilization
    active_loans score_trend now hmi
  have hnot : ¬(0 < monthly_income) := not_lt.mpr hmi
  have hratio : (buildProfile credit_score monthly_income monthly_expenses existing_emis
      credit_utilization active_loans score_trend).emi_ratio = 100 := by
    simp [buildProfile, hnot]
  have hdisp : (buildProfile credit_score monthly_income monthly_expenses existing_emis
      credit_utilization active_loans score_trend).disposable_pct = 0 := by
    simp [buildProfile, hnot]
  have hd0 : check_disposable (buildProfile credit_score monthly_income monthly_expenses
      existing_emis credit_utilization active_loans score_trend) = 0 := by
    simp [check_disposable, buildProfile, hmi]
  refine ⟨hratio, hdisp, ?_, ?_, ?_⟩
  · unfold generate_risk_alerts
    exact id_mem_of_rule (r := RISK_RULES.get ⟨0, by norm_num [RISK_RULES]⟩)
      (List.get_mem _ _ _)
      (show some (decide (40 < (buildProfile credit_score monthly_income
          monthly_expenses existing_emis credit_utilization active_loans
          score_trend).emi_ratio)) = some true by norm_num [hratio])
      rfl rfl
  · unfold generate_risk_alerts
    exact id_mem_of_rule (r := RISK_RULES.get ⟨1, by norm_num [RISK_RULES]⟩)
      (List.get_mem _ _ _)
      (show some (decide (60 < (buildProfile credit_score monthly_income
          monthly_expenses existing_emis credit_utilization active_loans
          score_trend).emi_ratio)) = some true by norm_num [hratio])
      rfl rfl
  · unfold generate_risk_alerts
    exact id_mem_of_rule (r := RISK_RULES.get ⟨6, by norm_num [RISK_RULES]⟩)
      (List.get_mem _ _ _)
      (show some (decide (check_disposable (buildProfile credit_score monthly_income
          monthly_expenses existing_emis credit_utilization active_loans
          score_trend) < 20)) = some true by norm_num [hd0])
      rfl rfl

/-- C10 witness: the sentinel and the three alerts at a concrete
zero-income input. -/
theorem zero_income_sentinel_alerts_witness :
    (buildProfile 700 0 50 100 50 2 0).emi_ratio = 100
    ∧ (buildProfile 700 0 50 100 50 2 0).disposable_pct = 0
    ∧ "high_emi_burden" ∈ (generate_risk_alerts 700 0 50 100 50 2 0 "t").map
        (fun a => a.id)
    ∧ "very_high_emi" ∈ (generate_risk_alerts 700 0 50 100 50 2 0 "t").map
        (fun a => a.id)
    ∧ "low_disposable_income" ∈ (generate_risk_alerts 700 0 50 100 50 2 0 "t").map
        (fun a => a.id) :=
  zero_income_sentinel_alerts 700 0 50 100 50 2 0 "t" (by norm_num)
